import Mathlib

/-!
Verification of the Mach JNI binding layer (hurd-java): a shallow embedding of
the C sources src/mach/MachPort.c, src/mach/Mach.c, src/HelloMach.c and the
mach-java.h interface, with theorems settling the specified properties of port
handle lifetime management, message construction, and the exchange primitive.
-/

set_option maxRecDepth 8192

namespace HurdJava

/-! ### ABI constants

Numeric constants from the Mach headers (the external kernel IPC facility),
exactly as the GNU Mach ABI defines them and as the C sources use them. -/

def KERN_SUCCESS : Int := 0

def KERN_RESOURCE_SHORTAGE : Int := 6

def MACH_PORT_NULL : Nat := 0

def MACH_PORT_RIGHT_RECEIVE : Nat := 1

def MACH_MSG_TYPE_CHAR : Nat := 8

def MACH_MSG_TYPE_INTEGER_64 : Nat := 11

def MACH_MSG_TYPE_COPY_SEND : Nat := 19

def MACH_MSG_TYPE_MAKE_SEND_ONCE : Nat := 21

def MACH_SEND_MSG : Nat := 1

def MACH_RCV_MSG : Nat := 2

def MACH_MSG_TIMEOUT_NONE : Nat := 0

/-- The MACH_MSGH_BITS(remote, local) macro: remote bits in the low byte, the
local bits shifted left by 8. -/
def MACH_MSGH_BITS (remote lcl : Nat) : Nat := remote ||| (lcl <<< 8)

/-! ### Port Registry / Bridge (src/mach/MachPort.c) -/

/-- The org.gnu.mach.MachPort wrapper object as the native code sees it: its
integer `name` field (a jint, 32 bits). -/
structure MachPortObj where
  name : Nat
  deriving DecidableEq, Repr

/-- mach_java_makeport (src/mach/MachPort.c): constructs a MachPort object via
NewObject with the (jint)-cast port name, which stores the low 32 bits of the
name into the `name` field. -/
def mach_java_makeport (name : Nat) : MachPortObj :=
  ⟨name % 2 ^ 32⟩

/-- mach_java_getport (src/mach/MachPort.c): `obj ? GetIntField(obj, nameID)
: MACH_PORT_NULL` - reads the `name` field of a non-null object, and returns
the MACH_PORT_NULL sentinel for a null reference. -/
def mach_java_getport (obj : Option MachPortObj) : Nat :=
  match obj with
  | some o => o.name
  | none => MACH_PORT_NULL

/-! ### Port allocation (src/mach/MachPort.c and src/mach/Mach.c) -/

/-- Outcome of one kernel mach_port_allocate call: the kern_return_t and the
port name written through the out parameter (meaningful when err is
KERN_SUCCESS). -/
structure AllocResult where
  err : Int
  name : Nat
  deriving DecidableEq, Repr

/-- Java_org_gnu_mach_MachPort_allocate (src/mach/MachPort.c): calls
mach_port_allocate; the error branch `if(err != KERN_SUCCESS)` has an empty
body (marked `FIXME: handle errors` in the source), so the function
unconditionally wraps whatever name the out parameter holds and returns a
normal object. Its return type has no error channel and it raises no
exception. -/
def MachPort_allocate (k : AllocResult) : MachPortObj :=
  mach_java_makeport k.name

/-- Java_org_gnu_mach_Mach_00024Port_allocate (src/mach/Mach.c): calls
mach_port_allocate and then `assert(err == KERN_SUCCESS)`; on failure the
assert aborts the whole process (modelled as `none`), so no error value ever
reaches the caller; on success the raw name is returned. -/
def Mach_Port_allocate (k : AllocResult) : Option Nat :=
  if k.err = KERN_SUCCESS then some k.name else none

/-! ### Deallocation (src/mach/MachPort.c native side, managed side modelled
from the spec) -/

/-- Java_org_gnu_mach_MachPort_nativeDeallocate (src/mach/MachPort.c): one raw
kernel release, `mach_port_deallocate(mach_task_self(), mach_java_getport(env,
obj))`; the value returned here is the port name handed to the kernel release
call. -/
def nativeDeallocate (obj : Option MachPortObj) : Nat :=
  mach_java_getport obj

/-- A Port Handle with the per-handle liveness flag the spec requires the
managed side to track. -/
structure Handle where
  obj : MachPortObj
  deallocated : Bool
  deriving DecidableEq, Repr

/-- What a deallocate request reports to its immediate caller. -/
inductive DeallocOutcome where
  | released
  | alreadyDead
  deriving DecidableEq, Repr

/-- Modelled from the spec: the managed-side deallocate wrapper of the
org.gnu.mach.MachPort class, which is not among the native sources (src/ holds
only its native callee Java_org_gnu_mach_MachPort_nativeDeallocate). Spec 4.1:
deallocate "must never execute twice for the same right - the design must
track a per-handle already-deallocated flag, or otherwise make deallocation
idempotent by translating a double-release attempt into a no-op/reported
error". Returns the outcome reported to the caller, the updated handle, and
the list of kernel release calls performed (each entry is the port name the
native nativeDeallocate hands to mach_port_deallocate). -/
def Handle_deallocate (h : Handle) : DeallocOutcome × Handle × List Nat :=
  if h.deallocated then
    (DeallocOutcome.alreadyDead, h, [])
  else
    (DeallocOutcome.released, { h with deallocated := true },
      [nativeDeallocate (some h.obj)])

/-! ### Exchange Primitive (src/mach/Mach.c, Java_org_gnu_mach_Mach_msg) -/

/-- A java.nio direct byte buffer as Java_org_gnu_mach_Mach_msg reads it: its
current position (via the cached position method) and its total capacity (via
GetDirectBufferCapacity). -/
structure DirectBuffer where
  position : Nat
  capacity : Nat
  deriving DecidableEq, Repr

/-- The argument tuple of one kernel mach_msg call as the kernel receives it:
per the mach_msg prototype, sendSize and rcvSize are 32-bit mach_msg_size_t
values and timeout is a 32-bit unsigned mach_msg_timeout_t value. -/
structure MsgCall where
  msgOption : Nat
  sendSize : Nat
  rcvSize : Nat
  rcvName : Nat
  timeout : Nat
  notify : Nat
  deriving DecidableEq, Repr

/-- Java_org_gnu_mach_Mach_msg (src/mach/Mach.c): reads the buffer position
(a jint) and capacity (a jlong, from GetDirectBufferCapacity), then performs
exactly one mach_msg call - `return mach_msg(msgAddr, option, msgPos, msgSize,
rcvName, timeout, notify)` - and returns its status unchanged. At that call
the jlong capacity and the jlong timeout are implicitly converted to the
32-bit mach_msg_size_t and mach_msg_timeout_t parameter types, reducing both
modulo 2 ^ 32 (the timeout via its 64-bit two-s-complement image, since
mach_msg_timeout_t is unsigned). The kernel is an oracle mapping the received
call arguments to a status code; the function result is that status together
with the list of kernel calls performed. -/
def Mach_msg (kernel : MsgCall → Int) (msg : DirectBuffer) (msgOption : Nat)
    (rcvName : Nat) (timeout : Int) (notify : Nat) : Int × List MsgCall :=
  let call : MsgCall :=
    ⟨msgOption, msg.position, msg.capacity % 2 ^ 32, rcvName,
      (timeout % (2 : Int) ^ 32).toNat, notify⟩
  (kernel call, [call])

/-! ### The hello operation (src/HelloMach.c) -/

/-- mach_msg_header_t fields that Java_HelloMach_hello assigns. -/
structure MsgHeader where
  msgh_bits : Nat
  msgh_remote_port : Nat
  msgh_local_port : Nat
  msgh_id : Int
  deriving DecidableEq, Repr

/-- mach_msg_type_t: the short-form typed field descriptor. -/
structure MsgType where
  msgt_name : Nat
  msgt_size : Nat
  msgt_number : Nat
  msgt_inline : Bool
  msgt_longform : Bool
  msgt_deallocate : Bool
  msgt_unused : Nat
  deriving DecidableEq, Repr

/-- mach_msg_type_long_t: the long-form typed field descriptor. -/
structure MsgTypeLong where
  msgtl_header : MsgType
  msgtl_name : Nat
  msgtl_size : Nat
  msgtl_number : Nat
  deriving DecidableEq, Repr

/-- The request message struct msg.req built by Java_HelloMach_hello: header,
long-form data descriptor, 14 data bytes, short-form offset descriptor, and
the 64-bit offset payload (a loff_t, modelled as a mathematical integer with
its 64-bit two-s-complement image given by encodeInt64). -/
structure HelloRequest where
  hdr : MsgHeader
  dataType : MsgTypeLong
  data : List Nat
  offsetType : MsgType
  offset : Int
  deriving DecidableEq, Repr

/-- The 14 bytes memcpy-ed into msg.req.data: `sizeof msg.req.data` = 14 bytes
taken from the string literal "Hello, World!\n". -/
def helloData : List Nat :=
  (("Hello, World!\n".toList).map Char.toNat).take 14

/-- The 64-bit two-s-complement image of an integer payload value, as storing
it into a 64-bit field encodes it. -/
def encodeInt64 (v : Int) : Nat :=
  (v % (2 : Int) ^ 64).toNat

/-- One call made by Java_HelloMach_hello into the kernel facility, in program
order: the receive-right allocation, the message exchange (option flags,
receive port name, timeout, notify port name; the two layout-dependent sizeof
size arguments are outside the model), and the port-name release. -/
inductive KernelCall where
  | portAllocate (task : Nat) (right : Nat) (nameOut : Nat)
  | msgExchange (msgOption : Nat) (rcvName : Nat) (timeout : Nat) (notify : Nat)
  | portDeallocate (task : Nat) (name : Nat)
  deriving DecidableEq, Repr

/-- True exactly on a portAllocate entry. -/
def KernelCall.isPortAllocate : KernelCall → Bool
  | .portAllocate _ _ _ => true
  | _ => false

/-- True exactly on a portDeallocate entry. -/
def KernelCall.isPortDeallocate : KernelCall → Bool
  | .portDeallocate _ _ => true
  | _ => false

/-- True exactly on a msgExchange entry. -/
def KernelCall.isMsgExchange : KernelCall → Bool
  | .msgExchange _ _ _ _ => true
  | _ => false

/-- Java_HelloMach_hello (src/HelloMach.c), translated statement by statement.
Parameters stand for values supplied by external collaborators: `port` is the
jobject argument, `taskSelf` the name mach_task_self returns, `allocName` the
port name mach_port_allocate writes into replyp, and `msgStatus` the status
mach_msg returns. The result is the request message the function builds, the
observed mach_msg status, and the ordered trace of kernel calls it performs.
The reply union member (filled by the kernel on receive) and the printf are
outside the model. -/
def hello (port : Option MachPortObj) (taskSelf : Nat) (allocName : Nat)
    (msgStatus : Int) : HelloRequest × Int × List KernelCall :=
  let stdoutp := mach_java_getport port
  let replyp := allocName
  let req : HelloRequest :=
    { hdr :=
        { msgh_bits :=
            MACH_MSGH_BITS MACH_MSG_TYPE_COPY_SEND MACH_MSG_TYPE_MAKE_SEND_ONCE
          msgh_remote_port := stdoutp
          msgh_local_port := replyp
          msgh_id := 21000 }
      dataType :=
        { msgtl_header :=
            { msgt_name := 0
              msgt_size := 0
              msgt_number := 0
              msgt_inline := true
              msgt_longform := true
              msgt_deallocate := false
              msgt_unused := 0 }
          msgtl_name := MACH_MSG_TYPE_CHAR
          msgtl_size := 8
          msgtl_number := 14 }
      data := helloData
      offsetType :=
        { msgt_name := MACH_MSG_TYPE_INTEGER_64
          msgt_size := 64
          msgt_number := 1
          msgt_inline := true
          msgt_longform := false
          msgt_deallocate := false
          msgt_unused := 0 }
      offset := -1 }
  let err := msgStatus
  let trace : List KernelCall :=
    [ KernelCall.portAllocate taskSelf MACH_PORT_RIGHT_RECEIVE replyp
    , KernelCall.msgExchange (MACH_SEND_MSG ||| MACH_RCV_MSG) replyp
        MACH_MSG_TIMEOUT_NONE MACH_PORT_NULL
    , KernelCall.portDeallocate taskSelf replyp ]
  (req, err, trace)

/-! ### The lazily resolved metadata cache (src/mach/Mach.c, static jmethodID
mid_position), as a two-thread interleaving model

Java_org_gnu_mach_Mach_msg guards its method-ID cache with a plain
check-then-set: `if(mid_position == NULL) { ... mid_position = GetMethodID(
...); }`. Each thread performs two atomic actions under sequentially
consistent interleaving: (1) read and test the static, (2) if the read saw
NULL, resolve the ID and write the static. GetMethodID is deterministic for a
fixed class and signature, so both threads resolve to the same value `r`. -/

/-- The process-wide cache state: the static jmethodID (none = NULL) and how
many times the resolution (GetMethodID) has executed. -/
structure CacheState where
  mid_position : Option Nat
  resolves : Nat
  deriving DecidableEq, Repr

/-- Progress of one thread through the lazy-init code: before the check, after
the check (recording whether it saw NULL), finished. -/
inductive ThreadPC where
  | start
  | checked (sawNull : Bool)
  | done
  deriving DecidableEq, Repr

/-- Combined state of the cache and the two racing threads. -/
structure RaceState where
  cache : CacheState
  pc1 : ThreadPC
  pc2 : ThreadPC
  deriving DecidableEq, Repr

/-- One atomic action of a single thread executing the check-then-set, with
`r` the method ID GetMethodID resolves to. -/
def threadStep (r : Nat) (c : CacheState) (pc : ThreadPC) :
    CacheState × ThreadPC :=
  match pc with
  | ThreadPC.start => (c, ThreadPC.checked c.mid_position.isNone)
  | ThreadPC.checked true =>
      ({ mid_position := some r, resolves := c.resolves + 1 }, ThreadPC.done)
  | ThreadPC.checked false => (c, ThreadPC.done)
  | ThreadPC.done => (c, ThreadPC.done)

/-- Schedule one atomic action: `true` runs thread 1, `false` runs thread 2. -/
def raceStep (r : Nat) (s : RaceState) (t1 : Bool) : RaceState :=
  if t1 then
    let (c, pc) := threadStep r s.cache s.pc1
    { s with cache := c, pc1 := pc }
  else
    let (c, pc) := threadStep r s.cache s.pc2
    { s with cache := c, pc2 := pc }

/-- Run a whole schedule of interleaved atomic actions. -/
def raceRun (r : Nat) (sched : List Bool) (s : RaceState) : RaceState :=
  sched.foldl (raceStep r) s

/-- Initial state: the static is NULL, nothing resolved, both threads about to
enter Java_org_gnu_mach_Mach_msg for the first time. -/
def raceInit : RaceState :=
  ⟨⟨none, 0⟩, ThreadPC.start, ThreadPC.start⟩

/-! ## Theorems -/

/-- The 14 copied bytes are exactly the character codes of "Hello, World!\n". -/
lemma helloData_eq :
    helloData = [72, 101, 108, 108, 111, 44, 32, 87, 111, 114, 108, 100, 33, 10] := by
  decide

/-- Fourteen bytes are copied. -/
lemma helloData_length : helloData.length = 14 := by decide

/-- The 64-bit two-s-complement image of -1 is 2 ^ 64 - 1. -/
lemma encodeInt64_neg_one : encodeInt64 (-1) = 2 ^ 64 - 1 := by decide

/-- Every one of the 64 bits of the encoded -1 is set. -/
lemma encodeInt64_neg_one_bits :
    ∀ i < 64, Nat.testBit (encodeInt64 (-1)) i = true := by decide

/-- Claim C1: the claim says an allocation failure is reported to the
immediate caller as a distinct error value. The code does otherwise: with the
kernel returning KERN_RESOURCE_SHORTAGE and an arbitrary out-parameter value
99, Java_org_gnu_mach_MachPort_allocate still returns an ordinary wrapped
handle (its error branch is empty, so the failure is silently swallowed), and
Java_org_gnu_mach_Mach_00024Port_allocate aborts the whole process through its
assert instead of reporting anything; on success the returned handle does wrap
the kernel-provided name. -/
theorem C1_allocate_failure_swallowed :
    MachPort_allocate ⟨KERN_RESOURCE_SHORTAGE, 99⟩ = mach_java_makeport 99 ∧
    Mach_Port_allocate ⟨KERN_RESOURCE_SHORTAGE, 99⟩ = none ∧
    MachPort_allocate ⟨KERN_SUCCESS, 99⟩ = mach_java_makeport 99 := by
  refine ⟨rfl, by decide, rfl⟩

/-- Claim C2: deallocating a handle twice performs the kernel release at most
once in total; the second call on the already-deallocated handle performs no
kernel release at all and reports the recoverable alreadyDead outcome to the
caller instead of executing the release. -/
theorem C2_deallocate_at_most_once : ∀ h : Handle,
    (Handle_deallocate (Handle_deallocate h).2.1).1 =
      DeallocOutcome.alreadyDead ∧
    (Handle_deallocate (Handle_deallocate h).2.1).2.2 = [] ∧
    (Handle_deallocate h).2.2.length +
      (Handle_deallocate (Handle_deallocate h).2.1).2.2.length ≤ 1 := by
  intro h
  rcases h with ⟨obj, d⟩
  cases d <;> simp [Handle_deallocate]

/-- Claim C3: wrapping a raw 32-bit port name with mach_java_makeport and
reading it back with mach_java_getport yields exactly the raw name. -/
theorem C3_wrap_roundtrip (raw : Nat) (h : raw < 2 ^ 32) :
    mach_java_getport (some (mach_java_makeport raw)) = raw := by
  simp [mach_java_getport, mach_java_makeport]
  omega

theorem C3_wrap_roundtrip_witness :
    42 < 2 ^ 32 ∧ mach_java_getport (some (mach_java_makeport 42)) = 42 :=
  ⟨by decide, C3_wrap_roundtrip 42 (by decide)⟩

/-- Claim C4: for a null object reference mach_java_getport returns the
MACH_PORT_NULL sentinel (it is total, so it cannot fail). -/
theorem C4_getport_null :
    mach_java_getport none = MACH_PORT_NULL := rfl

/-- Claim C5: Java_org_gnu_mach_Mach_msg performs exactly one kernel mach_msg
call and hands its status code back unmodified - no retry, no
transformation. -/
theorem C5_msg_status_unmodified : ∀ (kernel : MsgCall → Int)
    (buf : DirectBuffer) (msgOption rcvName : Nat) (timeout : Int)
    (notify : Nat),
    ∃ c : MsgCall,
      (Mach_msg kernel buf msgOption rcvName timeout notify).2 = [c] ∧
      (Mach_msg kernel buf msgOption rcvName timeout notify).1 = kernel c := by
  intro kernel buf msgOption rcvName timeout notify
  exact ⟨_, rfl, rfl⟩

/-- Claim C6: every execution of hello builds the request exactly as
specified: header bits MACH_MSGH_BITS(copy-send, make-send-once), destination
the supplied port name, reply port the freshly allocated receive right,
message id 21000, an inline long-form char field of the 14 bytes of "Hello,
World!\n" with element size 8 and count 14, then an inline short-form 64-bit
integer field with count 1; and the kernel exchange is invoked with
MACH_SEND_MSG and MACH_RCV_MSG and the indefinite timeout. -/
theorem C6_hello_request_exact : ∀ (p : MachPortObj) (ts an : Nat) (st : Int),
    (hello (some p) ts an st).1.hdr.msgh_bits =
      MACH_MSGH_BITS MACH_MSG_TYPE_COPY_SEND MACH_MSG_TYPE_MAKE_SEND_ONCE ∧
    (hello (some p) ts an st).1.hdr.msgh_remote_port = p.name ∧
    (hello (some p) ts an st).1.hdr.msgh_local_port = an ∧
    (hello (some p) ts an st).2.2.head? =
      some (KernelCall.portAllocate ts MACH_PORT_RIGHT_RECEIVE an) ∧
    (hello (some p) ts an st).1.hdr.msgh_id = 21000 ∧
    (hello (some p) ts an st).1.dataType.msgtl_header.msgt_inline = true ∧
    (hello (some p) ts an st).1.dataType.msgtl_header.msgt_longform = true ∧
    (hello (some p) ts an st).1.dataType.msgtl_name = MACH_MSG_TYPE_CHAR ∧
    (hello (some p) ts an st).1.dataType.msgtl_size = 8 ∧
    (hello (some p) ts an st).1.dataType.msgtl_number = 14 ∧
    (hello (some p) ts an st).1.data =
      [72, 101, 108, 108, 111, 44, 32, 87, 111, 114, 108, 100, 33, 10] ∧
    (hello (some p) ts an st).1.data.length = 14 ∧
    (hello (some p) ts an st).1.offsetType.msgt_name =
      MACH_MSG_TYPE_INTEGER_64 ∧
    (hello (some p) ts an st).1.offsetType.msgt_size = 64 ∧
    (hello (some p) ts an st).1.offsetType.msgt_number = 1 ∧
    (hello (some p) ts an st).1.offsetType.msgt_inline = true ∧
    (hello (some p) ts an st).1.offsetType.msgt_longform = false ∧
    (hello (some p) ts an st).2.2.filter KernelCall.isMsgExchange =
      [KernelCall.msgExchange (MACH_SEND_MSG ||| MACH_RCV_MSG) an
        MACH_MSG_TIMEOUT_NONE MACH_PORT_NULL] := by
  intro p ts an st
  refine ⟨rfl, rfl, rfl, rfl, rfl, rfl, rfl, rfl, rfl, rfl, helloData_eq,
    helloData_length, rfl, rfl, rfl, rfl, rfl, rfl⟩

/-- Claim C7: the sentinel offset is stored as exactly -1 and its 64-bit
two-s-complement encoding has all 64 bits set (the value 2 ^ 64 - 1),
unmodified and not reinterpreted, in every execution of hello. -/
theorem C7_offset_sentinel : ∀ (port : Option MachPortObj) (ts an : Nat)
    (st : Int),
    (hello port ts an st).1.offset = -1 ∧
    encodeInt64 (hello port ts an st).1.offset = 2 ^ 64 - 1 ∧
    ∀ i < 64,
      Nat.testBit (encodeInt64 (hello port ts an st).1.offset) i = true := by
  intro port ts an st
  exact ⟨rfl, encodeInt64_neg_one, encodeInt64_neg_one_bits⟩

/-- Claim C8: the claim says the mid_position cache of
Java_org_gnu_mach_Mach_msg is initialized exactly once under a
synchronization primitive. The code guards it with an unsynchronized
check-then-set on a plain static, so under the interleaving in which both
threads read the static before either writes it, the resolution executes
twice - not exactly once - though both writes store the same resolved
value r. -/
theorem C8_lazy_init_double_resolve : ∀ r : Nat,
    (raceRun r [true, false, true, false] raceInit).cache.resolves = 2 ∧
    (raceRun r [true, false, true, false] raceInit).cache.mid_position =
      some r ∧
    (raceRun r [true, false, true, false] raceInit).pc1 = ThreadPC.done ∧
    (raceRun r [true, false, true, false] raceInit).pc2 = ThreadPC.done := by
  intro r
  refine ⟨rfl, rfl, rfl, rfl⟩

/-- Claim C9, counterexample to the claim as stated: with a buffer of
capacity 2 ^ 32 and a jlong timeout of 2 ^ 32, the single mach_msg call
receives receive size 0 and timeout 0 - the implicit conversion to the 32-bit
mach_msg_size_t and mach_msg_timeout_t wraps both - so neither the capacity
nor the timeout is forwarded unchanged. -/
theorem C9_forward_counterexample :
    (Mach_msg (fun _ => 0) ⟨5, 2 ^ 32⟩ 3 7 ((2 : Int) ^ 32) 0).2 =
      [⟨3, 5, 0, 7, 0, 0⟩] ∧ (2 ^ 32 : Nat) ≠ 0 := by
  refine ⟨by decide, by decide⟩

/-- Claim C9 as amended: the single kernel mach_msg call receives the buffer
position as the send size, the buffer capacity reduced modulo 2 ^ 32 as the
receive size, the timeout reduced modulo 2 ^ 32 (through its 64-bit
two-s-complement image), and the option flags, receive port name and notify
port name unchanged; capacity and timeout are therefore forwarded unchanged
exactly when they fit in 32 bits. -/
theorem C9_msg_forwards_mod32 : ∀ (kernel : MsgCall → Int)
    (buf : DirectBuffer) (msgOption rcvName : Nat) (timeout : Int)
    (notify : Nat),
    (Mach_msg kernel buf msgOption rcvName timeout notify).2 =
      [⟨msgOption, buf.position, buf.capacity % 2 ^ 32, rcvName,
        (timeout % (2 : Int) ^ 32).toNat, notify⟩] ∧
    (0 ≤ timeout → timeout < (2 : Int) ^ 32 →
      (Mach_msg kernel buf msgOption rcvName timeout notify).2.map
        (fun c => (c.timeout : Int)) = [timeout]) ∧
    (buf.capacity < 2 ^ 32 →
      (Mach_msg kernel buf msgOption rcvName timeout notify).2.map
        MsgCall.rcvSize = [buf.capacity]) := by
  intro kernel buf msgOption rcvName timeout notify
  refine ⟨rfl, fun h1 h2 => ?_, fun h => ?_⟩
  · simp only [Mach_msg, List.map_cons, List.map_nil]
    rw [Int.emod_eq_of_lt h1 h2, Int.toNat_of_nonneg h1]
  · simp only [Mach_msg, List.map_cons, List.map_nil]
    rw [Nat.mod_eq_of_lt h]

theorem C9_msg_forwards_mod32_witness :
    ((0 : Int) ≤ 1000 ∧ (1000 : Int) < (2 : Int) ^ 32 ∧ (64 : Nat) < 2 ^ 32) ∧
    (Mach_msg (fun _ => 0) ⟨24, 64⟩ 3 7 1000 0).2.map
      (fun c => (c.timeout : Int)) = [1000] ∧
    (Mach_msg (fun _ => 0) ⟨24, 64⟩ 3 7 1000 0).2.map MsgCall.rcvSize =
      [64] :=
  ⟨⟨by decide, by decide, by decide⟩,
    (C9_msg_forwards_mod32 (fun _ => 0) ⟨24, 64⟩ 3 7 1000 0).2.1
      (by decide) (by decide),
    (C9_msg_forwards_mod32 (fun _ => 0) ⟨24, 64⟩ 3 7 1000 0).2.2
      (by decide)⟩

/-- Claim C10: every completed execution of hello performs exactly one kernel
port allocation (a receive right, whose name is the reply port) and exactly
one kernel port release of that same name, the release being the last kernel
call before returning, for every exchange status. -/
theorem C10_hello_balanced : ∀ (port : Option MachPortObj) (ts an : Nat)
    (st : Int),
    (hello port ts an st).2.2.filter KernelCall.isPortAllocate =
      [KernelCall.portAllocate ts MACH_PORT_RIGHT_RECEIVE an] ∧
    (hello port ts an st).2.2.filter KernelCall.isPortDeallocate =
      [KernelCall.portDeallocate ts an] ∧
    (hello port ts an st).2.2.getLast? =
      some (KernelCall.portDeallocate ts an) := by
  intro port ts an st
  refine ⟨rfl, rfl, rfl⟩

end HurdJava
